import Mathlib

/-!
Shallow embedding of the Playblast Quad View Blender add-on
(src/quad_view_playblast.py) and proofs about its operators.

Each operator's `execute`/`modal` method is embedded as a pure Lean
function over explicit state.  Host-application effects (the quad-view
split command, the screenshot operator, the render call, OS file-browser
launches, filesystem deletion) are recorded in the result as flags or
lists, and host calls that may raise a Python exception are modelled by
a boolean oracle input that selects the `except` branch of the code.
-/

namespace QuadViewPlayblast

/-- Return statuses of a Blender operator method, as returned in the
source as a set literal such as \x7b'FINISHED'\x7d. -/
inductive Status where
  | FINISHED
  | CANCELLED
  | RUNNING_MODAL
deriving DecidableEq, Repr

/-- Severity passed to `self.report` in the source. -/
inductive ReportLevel where
  | ERROR
  | WARNING
  | INFO
deriving DecidableEq, Repr

/-- One `self.report(level, msg)` call. -/
structure Report where
  level : ReportLevel
  msg : String
deriving DecidableEq, Repr

/-! ## Layout toggle: QP_OT_switch_layout (lines 36-73) -/

/-- A Blender region; only its `type` string matters to the source. -/
structure Region where
  type : String
deriving DecidableEq, Repr

/-- A Blender area: its `type` string and its list of regions. -/
structure Area where
  type : String
  regions : List Region
deriving DecidableEq, Repr

/-- The area/region search loop of `QP_OT_switch_layout.execute`
(lines 46-54): the first area of type VIEW_3D that contains a region of
type WINDOW, paired with that region.  An area of type VIEW_3D with no
WINDOW region leaves both variables unset and the outer loop continues. -/
def findViewportPair : List Area → Option (Area × Region)
  | [] => none
  | a :: rest =>
    if a.type = "VIEW_3D" then
      match a.regions.find? (fun r => r.type = "WINDOW") with
      | some r => some (a, r)
      | none => findViewportPair rest
    else findViewportPair rest

/-- Result of `QP_OT_switch_layout.execute`: the returned status, the
value of the stored `is_quad_active` property afterwards, whether
`bpy.ops.screen.region_quadview()` was invoked, and the reports made. -/
structure SwitchLayoutResult where
  status : Status
  is_quad_active : Bool
  quadviewInvoked : Bool
  reports : List Report
deriving DecidableEq, Repr

/-- `QP_OT_switch_layout.execute` (lines 42-73).  `areas` is
`context.screen.areas`; `quadviewRaises` selects the `except` branch of
the `try` block; `is_quad_active` is the stored boolean before the call.
The flip of the stored boolean happens inside the `try`, after the host
command, so a raising command leaves the flag unchanged. -/
def switchLayoutExecute (areas : List Area) (quadviewRaises : Bool)
    (is_quad_active : Bool) : SwitchLayoutResult :=
  match findViewportPair areas with
  | none =>
    { status := .CANCELLED
      is_quad_active := is_quad_active
      quadviewInvoked := false
      reports := [⟨.ERROR, "Could not find a View3D area with a WINDOW region."⟩] }
  | some _ =>
    if quadviewRaises then
      { status := .CANCELLED
        is_quad_active := is_quad_active
        quadviewInvoked := true
        reports := [⟨.ERROR, "Error: exception from region_quadview"⟩] }
    else
      { status := .FINISHED
        is_quad_active := !is_quad_active
        quadviewInvoked := true
        reports := [⟨.INFO, if !is_quad_active then "Quad View enabled"
                            else "Returned to original layout"⟩] }

/-! ## Open render folder: QP_OT_open_render_folder (lines 76-96) -/

/-- The platform-specific OS call the source can launch (lines 87-92). -/
inductive OsLaunch where
  | startfile
  | openCommand
  | xdgOpen
deriving DecidableEq, Repr

/-- Result of `QP_OT_open_render_folder.execute`. -/
structure OpenFolderResult where
  status : Status
  osLaunch : Option OsLaunch
  reports : List Report
deriving DecidableEq, Repr

/-- `QP_OT_open_render_folder.execute` (lines 81-96).  `folderExists`
is the `os.path.exists(folder_path)` test; `platform` is the value of
`platform.system()`.  The method returns FINISHED on every path. -/
def openRenderFolderExecute (folderExists : Bool) (platform : String) :
    OpenFolderResult :=
  if folderExists then
    { status := .FINISHED
      osLaunch := some (if platform = "Windows" then .startfile
                        else if platform = "Darwin" then .openCommand
                        else .xdgOpen)
      reports := [⟨.INFO, "Opened folder"⟩] }
  else
    { status := .FINISHED
      osLaunch := none
      reports := [⟨.ERROR, "Folder does not exist"⟩] }

/-! ## Single-frame capture: QP_OT_screenshot_quadview (lines 100-173) -/

/-- The four viewport overlay visibility flags the operator touches. -/
structure ViewOverlays where
  show_region_ui : Bool
  show_region_toolbar : Bool
  show_gizmo : Bool
  show_region_tool_header : Bool
deriving DecidableEq, Repr

/-- The state the operator saves in `execute` (lines 133-134): only the
sidebar and toolbar visibility are recorded. -/
structure CaptureSaved where
  ui_was_visible : Bool
  toolbar_was_visible : Bool
deriving DecidableEq, Repr

/-- The overlay mutation of `QP_OT_screenshot_quadview.execute`
(lines 132-141): saves ui/toolbar visibility, then disables all four
flags (gizmo and tool header are guarded by `hasattr`, which holds for
a 3D viewport space). -/
def screenshotExecuteOverlays (v : ViewOverlays) :
    ViewOverlays × CaptureSaved :=
  (⟨false, false, false, false⟩, ⟨v.show_region_ui, v.show_region_toolbar⟩)

/-- The overlay restore of `QP_OT_screenshot_quadview.modal` on the
TIMER tick (lines 159-166): ui/toolbar are set back to the saved
values, while gizmo and tool header are set to `true` unconditionally. -/
def screenshotModalRestore (saved : CaptureSaved) (_v : ViewOverlays) :
    ViewOverlays :=
  ⟨saved.ui_was_visible, saved.toolbar_was_visible, true, true⟩

/-- The overlay flags after the full request/tick round trip of the
single-frame capture. -/
def screenshotOverlayRoundTrip (v : ViewOverlays) : ViewOverlays :=
  let p := screenshotExecuteOverlays v
  screenshotModalRestore p.2 p.1

/-! ## Animation capture: QP_OT_screenshot_quadview_anim (lines 177-276) -/

/-- The Python format `f"...{n:04d}"` for a natural number: the decimal
digits, left-padded with zeros to a minimum width of 4. -/
def pad4 (n : Nat) : String :=
  let s := Nat.repr n
  String.mk (List.replicate (4 - s.length) '0') ++ s

/-- The screenshot file name written for frame `n` (line 269). -/
def frameFilename (n : Nat) : String :=
  "quadview_frame_" ++ pad4 n ++ ".png"

/-- The mutable state of `QP_OT_screenshot_quadview_anim` during the
modal loop: the frame counter and bounds, the warm-up tick counter, the
sequence of screenshot files written so far (in write order), whether
the modal loop has returned FINISHED, and whether the combiner operator
has been invoked. -/
structure AnimState where
  frameCurrent : Nat
  frameEnd : Nat
  waitFrames : Nat
  files : List String
  finished : Bool
  combinerInvoked : Bool
deriving DecidableEq, Repr

/-- The state set up by `QP_OT_screenshot_quadview_anim.execute`
(lines 207-237): the frame counter starts at the scene frame start, the
warm-up counter at 2, and no files have been written. -/
def animInit (frameStart frameEnd : Nat) : AnimState :=
  { frameCurrent := frameStart
    frameEnd := frameEnd
    waitFrames := 2
    files := []
    finished := false
    combinerInvoked := false }

/-- One TIMER tick of `QP_OT_screenshot_quadview_anim.modal`
(lines 241-276): warm-up ticks are discarded; once the frame counter
exceeds the end frame the overlays are restored, the combiner is
invoked and the modal returns FINISHED; otherwise the current frame is
captured to its zero-padded file name and the counter advances. -/
def animModalTick (s : AnimState) : AnimState :=
  if s.waitFrames > 0 then
    { s with waitFrames := s.waitFrames - 1 }
  else if s.frameCurrent > s.frameEnd then
    { s with finished := true, combinerInvoked := true }
  else
    { s with files := s.files ++ [frameFilename s.frameCurrent]
             frameCurrent := s.frameCurrent + 1 }

/-- Termination measure for the modal loop: pending warm-up ticks, plus
pending frames, plus one for the final FINISHED transition. -/
def animMeasure (s : AnimState) : Nat :=
  s.waitFrames + (s.frameEnd + 1 - s.frameCurrent) +
    (if s.finished then 0 else 1)

theorem animMeasure_tick_lt (s : AnimState) (h : s.finished = false) :
    animMeasure (animModalTick s) < animMeasure s := by
  unfold animModalTick
  split
  · simp [animMeasure, h]
    omega
  · split
    · simp [animMeasure, h]
    · simp [animMeasure, h]
      omega

/-- The modal loop run to completion: TIMER ticks are delivered until
the operator returns FINISHED. -/
def animRun (s : AnimState) : AnimState :=
  if s.finished then s
  else animRun (animModalTick s)
termination_by animMeasure s
decreasing_by
  apply animMeasure_tick_lt
  simp_all

/-! ## Combiner: QP_OT_combine_images_to_video (lines 279-376) -/

/-- The name of the disposable render scene (line 313). -/
def videoSceneName : String := "CombineVideoScene"

/-- The Python string test `f.endswith('.png')`: the candidate suffix
is a suffix of the character sequence of `s`. -/
def strEndsWith (s post : String) : Bool :=
  post.data.isSuffixOf s.data

/-- Strict lexicographic order on character sequences, compared by
code point, as Python compares strings. -/
def charListLt : List Char → List Char → Bool
  | [], [] => false
  | [], _ :: _ => true
  | _ :: _, [] => false
  | a :: as, b :: bs =>
    if a.toNat < b.toNat then true
    else if b.toNat < a.toNat then false
    else charListLt as bs

/-- Lexicographic at-most on strings. -/
def strLe (a b : String) : Bool := !(charListLt b.data a.data)

/-- Insert a string into an already sorted list, keeping it sorted. -/
def insertSorted (x : String) : List String → List String
  | [] => [x]
  | y :: ys => if strLe x y then x :: y :: ys else y :: insertSorted x ys

/-- Sorting by the lexicographic string order, modelling the Python
built-in `sorted`.  Insertion sort is used so the definition is
structurally recursive; on strings any comparison sort produces the
same list. -/
def sortStrings : List String → List String
  | [] => []
  | x :: xs => insertSorted x (sortStrings xs)

/-- The image list of line 297: the directory listing filtered to names
ending in .png, sorted. -/
def pngImages (files : List String) : List String :=
  sortStrings (files.filter (fun f => strEndsWith f ".png"))

/-- The guarded scene removal pattern of lines 314-315 and 372-373:
`if video_scene_name in bpy.data.scenes: bpy.data.scenes.remove(...)`.
Blender scene names are unique keys, so the indexed removal deletes the
single scene carrying that name; on a list this is `erase`. -/
def removeScene (scenes : List String) (name : String) : List String :=
  if name ∈ scenes then scenes.erase name else scenes

/-- The scene list right after lines 313-316 have run: any pre-existing
scene named `videoSceneName` is removed, then the new temporary render
scene of that name is created. -/
def scenesAfterCreate (scenes : List String) : List String :=
  removeScene scenes videoSceneName ++ [videoSceneName]

/-- Inputs of `QP_OT_combine_images_to_video.execute`: whether the temp
directory exists, its listing, the pixel size reported by loading the
first image, the names of the scenes in `bpy.data.scenes`, and oracles
selecting the two `except` branches (an exception inside the render
`try` block, and a failure of `shutil.rmtree`). -/
structure CombineInput where
  tempDirExists : Bool
  tempDirFiles : List String
  imgWidth : Nat
  imgHeight : Nat
  scenes : List String
  renderRaises : Bool
  rmtreeRaises : Bool
deriving DecidableEq, Repr

/-- Result of `QP_OT_combine_images_to_video.execute`: status, reports,
the scene list on return, whether the temp directory still exists,
whether the temporary render scene was created, whether the render was
invoked, and the resolution the created scene was given (if created). -/
structure CombineResult where
  status : Status
  reports : List Report
  scenes : List String
  tempDirExists : Bool
  sceneCreated : Bool
  renderInvoked : Bool
  resolution_x : Option Nat
  resolution_y : Option Nat
deriving DecidableEq, Repr

/-- `QP_OT_combine_images_to_video.execute` (lines 284-376).  The two
early exits (lines 293-300) report an error and cancel.  Past them, the
odd dimensions are rounded up (lines 307-311), the temporary scene is
created fresh (lines 313-316) and configured, and the render runs in a
`try` whose `except` removes the temporary scene and cancels
(lines 360-364).  On success `shutil.rmtree` is attempted (failure is a
WARNING only, lines 366-370), the temporary scene is removed
(lines 372-373) and the method reports completion and FINISHED. -/
def combineExecute (inp : CombineInput) : CombineResult :=
  if inp.tempDirExists = false then
    { status := .CANCELLED
      reports := [⟨.ERROR, "Temporary image folder does not exist."⟩]
      scenes := inp.scenes
      tempDirExists := inp.tempDirExists
      sceneCreated := false
      renderInvoked := false
      resolution_x := none
      resolution_y := none }
  else
    let images := pngImages inp.tempDirFiles
    if images.isEmpty then
      { status := .CANCELLED
        reports := [⟨.ERROR, "No images found to combine into a video."⟩]
        scenes := inp.scenes
        tempDirExists := inp.tempDirExists
        sceneCreated := false
        renderInvoked := false
        resolution_x := none
        resolution_y := none }
    else
      let img_width := if inp.imgWidth % 2 ≠ 0 then inp.imgWidth + 1
                       else inp.imgWidth
      let img_height := if inp.imgHeight % 2 ≠ 0 then inp.imgHeight + 1
                        else inp.imgHeight
      let scenes1 := scenesAfterCreate inp.scenes
      if inp.renderRaises then
        { status := .CANCELLED
          reports := [⟨.ERROR, "Error creating video: exception"⟩]
          scenes := removeScene scenes1 videoSceneName
          tempDirExists := inp.tempDirExists
          sceneCreated := true
          renderInvoked := true
          resolution_x := some img_width
          resolution_y := some img_height }
      else
        { status := .FINISHED
          reports :=
            (if inp.rmtreeRaises then
              [⟨.WARNING, "Could not delete temp folder: exception"⟩]
             else
              [⟨.INFO, "Temporary image folder deleted"⟩]) ++
            [⟨.INFO, "Video completed"⟩]
          scenes := removeScene scenes1 videoSceneName
          tempDirExists := inp.rmtreeRaises
          sceneCreated := true
          renderInvoked := true
          resolution_x := some img_width
          resolution_y := some img_height }

/-! ## Helper lemmas -/

theorem animRun_of_finished (s : AnimState) (h : s.finished = true) :
    animRun s = s := by
  unfold animRun
  simp [h]

theorem animRun_step (s : AnimState) (h : s.finished = false) :
    animRun s = animRun (animModalTick s) := by
  rw [animRun.eq_def]
  simp [h]

theorem animRun_files (n : Nat) : ∀ s : AnimState, animMeasure s ≤ n →
    s.finished = false →
    (animRun s).files = s.files ++
      (List.range' s.frameCurrent
        (s.frameEnd + 1 - s.frameCurrent)).map frameFilename := by
  induction n with
  | zero =>
    intro s hle h
    exfalso
    unfold animMeasure at hle
    rw [h] at hle
    simp at hle
  | succ n ih =>
    intro s hle h
    have hlt := animMeasure_tick_lt s h
    rw [animRun_step s h]
    by_cases hw : s.waitFrames > 0
    · have ht : animModalTick s = { s with waitFrames := s.waitFrames - 1 } := by
        unfold animModalTick
        simp [hw]
      rw [ht] at hlt ⊢
      rw [ih { s with waitFrames := s.waitFrames - 1 } (by omega) h]
    · by_cases hfe : s.frameCurrent > s.frameEnd
      · have ht : animModalTick s =
            { s with finished := true, combinerInvoked := true } := by
          unfold animModalTick
          simp [hw, hfe]
        rw [ht]
        rw [animRun_of_finished _ rfl]
        have hz : s.frameEnd + 1 - s.frameCurrent = 0 := by omega
        simp [hz]
      · have ht : animModalTick s =
            { s with files := s.files ++ [frameFilename s.frameCurrent]
                     frameCurrent := s.frameCurrent + 1 } := by
          unfold animModalTick
          simp [hw, hfe]
        rw [ht] at hlt ⊢
        rw [ih { s with files := s.files ++ [frameFilename s.frameCurrent]
                        frameCurrent := s.frameCurrent + 1 } (by omega) h]
        have hd : s.frameEnd + 1 - s.frameCurrent =
            (s.frameEnd + 1 - (s.frameCurrent + 1)) + 1 := by omega
        rw [hd, List.range'_succ]
        simp

theorem count_removeScene (l : List String) (n : String) :
    (removeScene l n).count n = l.count n - 1 := by
  unfold removeScene
  by_cases hm : n ∈ l
  · simp [hm, List.count_erase_self]
  · simp [hm, List.count_eq_zero.mpr hm]

theorem count_scenesAfterCreate (l : List String) :
    (scenesAfterCreate l).count videoSceneName =
      (l.count videoSceneName - 1) + 1 := by
  unfold scenesAfterCreate
  rw [List.count_append, count_removeScene]
  simp

theorem switch_layout_success_flips (areas : List Area) (qr b : Bool)
    (h : (switchLayoutExecute areas qr b).status = Status.FINISHED) :
    (switchLayoutExecute areas qr b).is_quad_active = !b := by
  unfold switchLayoutExecute at h ⊢
  cases hf : findViewportPair areas with
  | none =>
    rw [hf] at h
    simp at h
  | some p =>
    cases hq : qr with
    | false => simp
    | true =>
      rw [hf, hq] at h
      simp at h

/-! ## Concrete inputs used by the witness theorems -/

/-- A combiner input whose temp directory holds one captured frame of
size 101 by 51 pixels. -/
def oddSizeInput : CombineInput :=
  ⟨true, ["quadview_frame_0001.png"], 101, 51, ["Scene"], false, false⟩

/-- A combiner input whose temp directory is absent. -/
def missingDirInput : CombineInput :=
  ⟨false, [], 640, 480, ["Scene"], false, false⟩

/-- A combiner input where deleting the temp directory raises. -/
def rmtreeFailInput : CombineInput :=
  ⟨true, ["quadview_frame_0001.png"], 640, 480, ["Scene"], false, true⟩

/-- A combiner input with a stale temporary scene left by a previous
run that crashed before cleanup. -/
def staleSceneInput : CombineInput :=
  ⟨true, ["quadview_frame_0001.png"], 640, 480,
    ["Scene", "CombineVideoScene"], false, false⟩

/-- A screen whose only 3D viewport area has no WINDOW region. -/
def windowlessScreen : List Area :=
  [⟨"VIEW_3D", [⟨"HEADER"⟩]⟩, ⟨"PROPERTIES", [⟨"WINDOW"⟩]⟩]

/-- A screen with a standard 3D viewport. -/
def standardScreen : List Area :=
  [⟨"VIEW_3D", [⟨"HEADER"⟩, ⟨"WINDOW"⟩]⟩]

/-! ## Claim theorems -/

/-- Claim C1: past the directory and emptiness checks, the combiner
gives the render scene a resolution in which each dimension that is odd
is rounded up by one and each even dimension is kept, i.e. the result
is n for even n and n+1 for odd n. -/
theorem combine_rounds_dims_up_to_even (inp : CombineInput)
    (hd : inp.tempDirExists = true)
    (hi : (pngImages inp.tempDirFiles).isEmpty = false) :
    (combineExecute inp).resolution_x =
      some (if inp.imgWidth % 2 = 0 then inp.imgWidth else inp.imgWidth + 1) ∧
    (combineExecute inp).resolution_y =
      some (if inp.imgHeight % 2 = 0 then inp.imgHeight
            else inp.imgHeight + 1) := by
  by_cases hw : inp.imgWidth % 2 = 0 <;> by_cases hh : inp.imgHeight % 2 = 0 <;>
    by_cases hr : inp.renderRaises = true <;>
      simp [combineExecute, hd, hi, hw, hh, hr]

/-- Witness for C1: a 101 by 51 frame yields a 102 by 52 render
resolution. -/
theorem combine_rounds_dims_up_to_even_witness :
    (combineExecute oddSizeInput).resolution_x = some 102 ∧
    (combineExecute oddSizeInput).resolution_y = some 52 := by
  have h := combine_rounds_dims_up_to_even oddSizeInput rfl (by decide)
  exact ⟨h.1.trans (by decide), h.2.trans (by decide)⟩

/-- Claim C2: for every frame range with start at most end, running the
animation modal loop to completion writes exactly one screenshot file
per frame, in frame order, named quadview_frame_NNNN.png with the frame
number zero-padded to 4 digits. -/
theorem anim_writes_one_file_per_frame (fs fe : Nat) (h : fs ≤ fe) :
    (animRun (animInit fs fe)).files =
      (List.range' fs (fe - fs + 1)).map frameFilename ∧
    (animRun (animInit fs fe)).files.length = fe - fs + 1 := by
  have key := animRun_files (animMeasure (animInit fs fe)) (animInit fs fe)
      le_rfl rfl
  have he : (animInit fs fe).frameEnd + 1 - (animInit fs fe).frameCurrent =
      fe - fs + 1 := by
    show fe + 1 - fs = fe - fs + 1
    omega
  rw [he] at key
  have hfc : (animInit fs fe).frameCurrent = fs := rfl
  have hfl : (animInit fs fe).files = [] := rfl
  rw [hfc, hfl, List.nil_append] at key
  exact ⟨key, by rw [key]; simp⟩

/-- Witness for C2: frame range 1 to 5 yields exactly the five files
quadview_frame_0001.png through quadview_frame_0005.png. -/
theorem anim_writes_one_file_per_frame_witness :
    (animRun (animInit 1 5)).files =
      ["quadview_frame_0001.png", "quadview_frame_0002.png",
       "quadview_frame_0003.png", "quadview_frame_0004.png",
       "quadview_frame_0005.png"] :=
  ((anim_writes_one_file_per_frame 1 5 (by decide)).1).trans (by decide)

/-- Claim C3: when the temp directory is missing, or present but with
no .png files, the combiner reports an error, returns CANCELLED, and
performs no render: no render scene is created, the render command is
never invoked, and the scene list is untouched. -/
theorem combine_missing_or_empty_cancels (inp : CombineInput)
    (h : inp.tempDirExists = false ∨ pngImages inp.tempDirFiles = []) :
    (combineExecute inp).status = Status.CANCELLED ∧
    (∃ r ∈ (combineExecute inp).reports, r.level = ReportLevel.ERROR) ∧
    (combineExecute inp).sceneCreated = false ∧
    (combineExecute inp).renderInvoked = false ∧
    (combineExecute inp).scenes = inp.scenes := by
  rcases h with h | h
  · simp [combineExecute, h]
  · cases hde : inp.tempDirExists with
    | false => simp [combineExecute, hde]
    | true => simp [combineExecute, hde, h]

/-- Witness for C3: a missing temp directory cancels with an error and
no render. -/
theorem combine_missing_or_empty_cancels_witness :
    (combineExecute missingDirInput).status = Status.CANCELLED ∧
    (∃ r ∈ (combineExecute missingDirInput).reports,
      r.level = ReportLevel.ERROR) ∧
    (combineExecute missingDirInput).sceneCreated = false ∧
    (combineExecute missingDirInput).renderInvoked = false ∧
    (combineExecute missingDirInput).scenes = missingDirInput.scenes :=
  combine_missing_or_empty_cancels missingDirInput (Or.inl rfl)

/-- Claim C4 counterexample: the claim says every overlay flag is
restored to its pre-capture value; starting with the gizmo hidden, the
round trip ends with the gizmo shown, so the claim fails. -/
theorem screenshot_restore_counterexample :
    screenshotOverlayRoundTrip ⟨true, true, false, true⟩ ≠
      ⟨true, true, false, true⟩ := by
  decide

/-- Claim C4 (amended): the tick restores the sidebar and toolbar
visibility to their exact prior values, but sets the gizmo and tool
header visibility to shown unconditionally, whatever their prior
values were. -/
theorem screenshot_restore_ui_toolbar_only (v : ViewOverlays) :
    screenshotOverlayRoundTrip v =
      ⟨v.show_region_ui, v.show_region_toolbar, true, true⟩ := by
  cases v
  rfl

/-- Claim C5: with no 3D viewport area carrying a WINDOW region, the
layout toggle reports an error, returns CANCELLED, keeps the stored
flag, and never invokes the host quad-view command. -/
theorem switch_layout_no_viewport_cancels (areas : List Area)
    (qr b : Bool) (h : findViewportPair areas = none) :
    (switchLayoutExecute areas qr b).status = Status.CANCELLED ∧
    (switchLayoutExecute areas qr b).is_quad_active = b ∧
    (switchLayoutExecute areas qr b).quadviewInvoked = false ∧
    ∃ r ∈ (switchLayoutExecute areas qr b).reports,
      r.level = ReportLevel.ERROR := by
  simp [switchLayoutExecute, h]

/-- Witness for C5: on a screen whose viewport area lacks a WINDOW
region the toggle cancels without touching the flag. -/
theorem switch_layout_no_viewport_cancels_witness :
    (switchLayoutExecute windowlessScreen false true).status =
      Status.CANCELLED ∧
    (switchLayoutExecute windowlessScreen false true).is_quad_active = true ∧
    (switchLayoutExecute windowlessScreen false true).quadviewInvoked =
      false ∧
    ∃ r ∈ (switchLayoutExecute windowlessScreen false true).reports,
      r.level = ReportLevel.ERROR :=
  switch_layout_no_viewport_cancels windowlessScreen false true (by decide)

/-- Claim C6: two consecutive successful layout toggles return the
stored quad-active flag to its original value. -/
theorem switch_layout_double_toggle (a1 a2 : List Area) (r1 r2 b : Bool)
    (h1 : (switchLayoutExecute a1 r1 b).status = Status.FINISHED)
    (h2 : (switchLayoutExecute a2 r2
        (switchLayoutExecute a1 r1 b).is_quad_active).status =
      Status.FINISHED) :
    (switchLayoutExecute a2 r2
      (switchLayoutExecute a1 r1 b).is_quad_active).is_quad_active = b := by
  have e1 := switch_layout_success_flips a1 r1 b h1
  have e2 := switch_layout_success_flips a2 r2
      ((switchLayoutExecute a1 r1 b).is_quad_active) h2
  rw [e2, e1, Bool.not_not]

/-- Witness for C6: two successful toggles on a standard screen bring
the flag back to false. -/
theorem switch_layout_double_toggle_witness :
    (switchLayoutExecute standardScreen false
      (switchLayoutExecute standardScreen false false).is_quad_active
      ).is_quad_active = false :=
  switch_layout_double_toggle standardScreen standardScreen false false false
    (by decide) (by decide)

/-- Claim C7: past the early checks, the temporary render scene is
absent from the scene list on return, on both the success path and the
exception path; on success the operation returns FINISHED, the temp
directory is deleted when deletion succeeds, and a deletion failure
leaves the directory, adds a warning, and still returns FINISHED. -/
theorem combine_cleanup (inp : CombineInput)
    (hd : inp.tempDirExists = true)
    (hi : (pngImages inp.tempDirFiles).isEmpty = false)
    (hu : inp.scenes.count videoSceneName ≤ 1) :
    videoSceneName ∉ (combineExecute inp).scenes ∧
    (inp.renderRaises = false →
      (combineExecute inp).status = Status.FINISHED ∧
      (inp.rmtreeRaises = false →
        (combineExecute inp).tempDirExists = false) ∧
      (inp.rmtreeRaises = true →
        (combineExecute inp).tempDirExists = true ∧
        ∃ r ∈ (combineExecute inp).reports,
          r.level = ReportLevel.WARNING)) := by
  have hc : (removeScene (scenesAfterCreate inp.scenes)
      videoSceneName).count videoSceneName = 0 := by
    rw [count_removeScene, count_scenesAfterCreate]
    omega
  have hnm := List.count_eq_zero.mp hc
  by_cases h3 : inp.renderRaises = true
  · refine ⟨by simpa [combineExecute, hd, hi, h3] using hnm, ?_⟩
    intro hr
    rw [hr] at h3
    cases h3
  · by_cases h4 : inp.rmtreeRaises = true
    · exact ⟨by simpa [combineExecute, hd, hi, h3] using hnm,
        fun _ => by simp [combineExecute, hd, hi, h3, h4]⟩
    · exact ⟨by simpa [combineExecute, hd, hi, h3] using hnm,
        fun _ => by simp [combineExecute, hd, hi, h3, h4]⟩

/-- Witness for C7: with a failing temp-directory deletion the combine
still finishes, keeps the directory, warns, and the temporary scene is
gone from the scene list. -/
theorem combine_cleanup_witness :
    videoSceneName ∉ (combineExecute rmtreeFailInput).scenes ∧
    (rmtreeFailInput.renderRaises = false →
      (combineExecute rmtreeFailInput).status = Status.FINISHED ∧
      (rmtreeFailInput.rmtreeRaises = false →
        (combineExecute rmtreeFailInput).tempDirExists = false) ∧
      (rmtreeFailInput.rmtreeRaises = true →
        (combineExecute rmtreeFailInput).tempDirExists = true ∧
        ∃ r ∈ (combineExecute rmtreeFailInput).reports,
          r.level = ReportLevel.WARNING)) :=
  combine_cleanup rmtreeFailInput rfl (by decide) (by decide)

/-- Claim C8: when the derived folder does not exist, the open-folder
operator reports an error and launches no platform file browser. -/
theorem open_folder_missing_no_os_call (folderExists : Bool)
    (platform : String) (h : folderExists = false) :
    (openRenderFolderExecute folderExists platform).osLaunch = none ∧
    ∃ r ∈ (openRenderFolderExecute folderExists platform).reports,
      r.level = ReportLevel.ERROR := by
  simp [openRenderFolderExecute, h]

/-- Witness for C8: a missing folder on a Linux platform string. -/
theorem open_folder_missing_no_os_call_witness :
    (openRenderFolderExecute false "Linux").osLaunch = none ∧
    ∃ r ∈ (openRenderFolderExecute false "Linux").reports,
      r.level = ReportLevel.ERROR :=
  open_folder_missing_no_os_call false "Linux" rfl

/-- Claim C9: the open-folder operator returns FINISHED on every input,
including the missing-folder error path; it never returns CANCELLED. -/
theorem open_folder_always_finishes (folderExists : Bool)
    (platform : String) :
    (openRenderFolderExecute folderExists platform).status =
      Status.FINISHED ∧
    (openRenderFolderExecute folderExists platform).status ≠
      Status.CANCELLED := by
  cases folderExists <;> simp [openRenderFolderExecute]

/-- Claim C10: provided scene names are unique (Blender enforces at
most one scene per name), the combiner removes any pre-existing scene
named CombineVideoScene before creating the new one, so exactly one
such scene exists right after creation, and at most one exists in the
scene list the combiner returns. -/
theorem combine_temp_scene_unique (inp : CombineInput)
    (hu : inp.scenes.count videoSceneName ≤ 1) :
    (scenesAfterCreate inp.scenes).count videoSceneName = 1 ∧
    (combineExecute inp).scenes.count videoSceneName ≤ 1 := by
  refine ⟨by rw [count_scenesAfterCreate]; omega, ?_⟩
  by_cases h1 : inp.tempDirExists = false
  · simpa [combineExecute, h1] using hu
  · by_cases h2 : (pngImages inp.tempDirFiles).isEmpty = true
    · simpa [combineExecute, h1, h2] using hu
    · by_cases h3 : inp.renderRaises = true
      · simp [combineExecute, h1, h2, h3, count_removeScene,
          count_scenesAfterCreate]
        omega
      · simp [combineExecute, h1, h2, h3, count_removeScene,
          count_scenesAfterCreate]
        omega

/-- Witness for C10: a stale temporary scene from a crashed run is not
duplicated: one copy right after creation, none on return. -/
theorem combine_temp_scene_unique_witness :
    (scenesAfterCreate staleSceneInput.scenes).count videoSceneName = 1 ∧
    (combineExecute staleSceneInput).scenes.count videoSceneName ≤ 1 :=
  combine_temp_scene_unique staleSceneInput (by decide)

end QuadViewPlayblast
